import Mathlib

/-
Verification of the provider-fallback orchestrator, response parsers and
conversation store of the project-launcher backend.

The embedding is a direct translation of the Python sources:
  app/services/multi_model_service.py   (MultiModelService)
  app/services/conversation_service.py  (ConversationService)
  app/integrations/anthropic_client.py  (AnthropicClient)
  app/integrations/goose_ai_client.py   (GooseAIClient)

Modelling conventions:
  * Machine floats (wall-clock latencies, timestamps) are modelled as ℚ.
  * Python exceptions are modelled with `Except String`; a function whose
    Python body catches every exception is total (its Lean counterpart
    provably never returns `.error`).
  * The two remote endpoints are opaque (out of scope per the source layout);
    the outcome of each remote call is an `Env` parameter (`Remote`), and
    `json.loads` is the `Env.loads` parameter (`some` = valid JSON).
    Prompt strings are built as in the source where they are small; the huge
    documentation prompt templates inside the clients only feed the opaque
    remote and are not reproduced character-for-character.
  * Python `dict` state is an association list with unique keys; insertion
    replaces in place, preserving order, as CPython dicts do.
-/

namespace ProjectLauncher

/-- JSON values, the shape `json.loads` can produce. -/
inductive Json where
  | null
  | bool (b : Bool)
  | str (s : String)
  | num (n : Int)
  | arr (elems : List Json)
  | obj (fields : List (String × Json))

/-- Association lookup with a default, the core of Python `dict.get(key, default)`. -/
def jsonGetField : List (String × Json) → String → Json → Json
  | [], _, d => d
  | (k, v) :: rest, key, d => if k = key then v else jsonGetField rest key d

/-- Python `j.get(key, default)` on a parsed JSON value that is a dict.
On a non-dict Python raises `AttributeError`; callers in the embedding
branch on the dict-ness first, so the non-dict case here is unused. -/
def Json.getD (j : Json) (key : String) (default : Json) : Json :=
  match j with
  | .obj fields => jsonGetField fields key default
  | _ => default

/-- Rendering of a JSON value by Python `str()` inside an f-string.
Composite values are abstracted (no claim depends on their rendering). -/
def Json.pyStr : Json → String
  | .null => "None"
  | .bool true => "True"
  | .bool false => "False"
  | .str s => s
  | .num n => toString n
  | .arr _ => "[...]"
  | .obj _ => "\x7b...\x7d"

/-! Python string primitives used by the sources, over `List Char`. -/

/-- First index (from `i`) at which `pat` occurs as a prefix of the remaining list. -/
def findSubAux (pat : List Char) : List Char → Nat → Option Nat
  | [], i => if pat = [] then some i else none
  | c :: rest, i => if pat.isPrefixOf (c :: rest) then some i else findSubAux pat rest (i + 1)

/-- Python `s.find(pat)`: index of the first occurrence, `-1` if absent. -/
def pyFind (s pat : String) : Int :=
  match findSubAux pat.toList s.toList 0 with
  | some n => (n : Int)
  | none => -1

/-- Python `s.find(pat, start)`: first occurrence at or after `start`, `-1` if absent. -/
def pyFindFrom (s pat : String) (start : Nat) : Int :=
  match findSubAux pat.toList (s.toList.drop start) 0 with
  | some n => ((start + n : Nat) : Int)
  | none => -1

/-- Python `pat in s` (substring containment). -/
def pyContains (s pat : String) : Bool :=
  decide (0 ≤ pyFind s pat)

/-- Python slicing `s[a:b]` (step 1), including negative-index semantics. -/
def pySlice (s : String) (a b : Int) : String :=
  let n : Int := s.toList.length
  let resolve : Int → Nat := fun i =>
    if i < 0 then (n + i).toNat else min i.toNat s.toList.length
  let lo := resolve a
  let hi := resolve b
  String.mk ((s.toList.drop lo).take (hi - lo))

/-- Python `s.strip()` (whitespace as recognised by `Char.isWhitespace`). -/
def pyStrip (s : String) : String :=
  String.mk (((s.toList.dropWhile Char.isWhitespace).reverse.dropWhile Char.isWhitespace).reverse)

/-- Python `s.lower()` (ASCII case mapping). -/
def pyLower (s : String) : String :=
  String.mk (s.toList.map Char.toLower)

/-! The environment: outcome of each opaque remote interaction. -/

/-- Outcome of one remote call: a returned text or a raised exception. -/
inductive Remote where
  | ok (text : String)
  | raise (msg : String)

/-- One call's external environment.  `anthropicConfigured` models
`AnthropicClient.client is not None`; `gooseAvailable` models
`GooseAIClient.available` (which in `__init__` implies the client object
exists).  The `Remote` fields give the truthful outcome of each underlying
network call, the time fields the measured wall-clock latencies, and
`loads` is `json.loads` (`some` exactly on valid JSON). -/
structure Env where
  anthropicConfigured : Bool
  gooseAvailable : Bool
  anthropicText : Remote
  gooseText : Remote
  anthropicTime : ℚ
  gooseTime : ℚ
  gooseDoc : Remote
  loads : String → Option Json

/-- The literal returned at every "trouble responding" site: it appears
verbatim in `anthropic_client.py:71`, `goose_ai_client.py:121` and
`multi_model_service.py:82`. -/
def placeholderText : String := "I'm having trouble responding right now. Please try again."

namespace AnthropicClient

/-- The body of the `try` in `AnthropicClient.generate_conversation_response`:
`self.client.messages.create(...)`.  With `client = None` the attribute
access raises; otherwise the remote call's outcome decides. -/
def messages_create (env : Env) : Except String String :=
  if env.anthropicConfigured then
    match env.anthropicText with
    | .ok t => .ok t
    | .raise m => .error m
  else .error "AttributeError: NoneType object has no attribute messages"

/-- `AnthropicClient.generate_conversation_response` (anthropic_client.py:52-71):
the whole body is wrapped in `try/except Exception`, which returns the
placeholder text, so the function never raises. -/
def generate_conversation_response (env : Env) : Except String String :=
  match messages_create env with
  | .ok t => .ok t
  | .error _ => .ok placeholderText

/-- Candidate extraction shared verbatim by `_parse_claude_response`,
`_parse_complete_project_response` (anthropic_client.py) and
`_parse_response` (goose_ai_client.py): prefer a ```json fence, then any
``` fence, else the whole text. -/
def extractCandidate (response_text : String) : String :=
  if pyContains response_text "```json" then
    let start := pyFind response_text "```json" + 7
    let stop := pyFindFrom response_text "```" start.toNat
    pyStrip (pySlice response_text start stop)
  else if pyContains response_text "```" then
    let start := pyFind response_text "```" + 3
    let stop := pyFindFrom response_text "```" start.toNat
    pyStrip (pySlice response_text start stop)
  else response_text

/-- `AnthropicClient._parse_claude_response` (anthropic_client.py:189-227). -/
def parse_claude_response (loads : String → Option Json) (response_text : String) : Json :=
  match loads (extractCandidate response_text) with
  | some result => result
  | none => Json.obj
      [("project_name", .str "project"),
       ("description", .str response_text),
       ("architecture", .obj []),
       ("documentation", .obj []),
       ("repositories", .arr []),
       ("next_steps", .arr []),
       ("estimated_timeline", .str "3-4 weeks"),
       ("raw_response", .str response_text)]

/-- `AnthropicClient._parse_complete_project_response` (anthropic_client.py:446-483). -/
def parse_complete_project_response (loads : String → Option Json) (response_text : String) : Json :=
  match loads (extractCandidate response_text) with
  | some result => result
  | none => Json.obj
      [("project_name", .str "project"),
       ("description", .str response_text),
       ("file_structure", .obj []),
       ("repositories", .arr []),
       ("dependencies", .obj []),
       ("github_issues", .arr []),
       ("claude_guide", .obj []),
       ("deployment", .obj []),
       ("raw_response", .str response_text)]

/-- The message of the `AttributeError` raised by
`self._build_conversation_context(...)` in `generate_complete_project`
(anthropic_client.py:321): that method is defined nowhere in the class. -/
def attributeErrorMsg : String :=
  "'AnthropicClient' object has no attribute '_build_conversation_context'"

/-- `AnthropicClient.generate_complete_project` (anthropic_client.py:316-425):
the first statement of the `try` calls the undefined
`_build_conversation_context`, so the body always raises `AttributeError`
and the `except` returns the error dict; the function never raises. -/
def generate_complete_project (_env : Env) : Except String Json :=
  .ok (Json.obj [("error", .str attributeErrorMsg)])

end AnthropicClient

namespace GooseAIClient

/-- `GooseAIClient.generate_conversation_response` (goose_ai_client.py:94-121):
raises when unavailable; otherwise catches remote errors and returns the
placeholder, and on success returns `response.choices[0].text.strip()`. -/
def generate_conversation_response (env : Env) : Except String String :=
  if env.gooseAvailable = false then .error "GooseAI not available - missing API key"
  else
    match env.gooseText with
    | .ok t => .ok (pyStrip t)
    | .raise _ => .ok placeholderText

/-- `GooseAIClient._parse_response` (goose_ai_client.py:208-244). -/
def parse_response (loads : String → Option Json) (response_text : String) : Json :=
  match loads (AnthropicClient.extractCandidate response_text) with
  | some result => result
  | none => Json.obj
      [("project_name", .str "project"),
       ("overview", .str response_text),
       ("setup_guide", .str ""),
       ("implementation_guide", .str ""),
       ("backend", .str ""),
       ("frontend", .str ""),
       ("config", .str ""),
       ("dependencies", .arr []),
       ("github_issues", .arr [])]

/-- The dict returned by the `except` of
`GooseAIClient.generate_complete_project` (goose_ai_client.py:182-193). -/
def doc_failure_fallback : Json := Json.obj
  [("project_name", .str "Project"),
   ("overview", .str "Documentation generation failed. Please try again."),
   ("setup_guide", .str ""),
   ("implementation_guide", .str ""),
   ("backend", .str ""),
   ("frontend", .str ""),
   ("config", .str ""),
   ("dependencies", .arr []),
   ("github_issues", .arr [])]

/-- `GooseAIClient.generate_complete_project` (goose_ai_client.py:123-193):
raises when unavailable; otherwise parses the stripped remote text, and
on any remote error returns the failure dict. -/
def generate_complete_project (env : Env) : Except String Json :=
  if env.gooseAvailable = false then .error "GooseAI not available - missing API key"
  else
    match env.gooseDoc with
    | .ok t => .ok (parse_response env.loads (pyStrip t))
    | .raise _ => .ok doc_failure_fallback

end GooseAIClient

/-! Orchestrator: MultiModelService. -/

/-- One row of `MultiModelService.model_performance`. -/
structure PerfEntry where
  success : Nat
  failure : Nat
  avg_response_time : ℚ

/-- The whole `model_performance` dict. -/
structure Perf where
  anthropic : PerfEntry
  goose_ai : PerfEntry

/-- The counters as initialised in `MultiModelService.__init__`. -/
def initPerf : Perf := ⟨⟨0, 0, 0⟩, ⟨0, 0, 0⟩⟩

namespace MultiModelService

/-- The per-model part of `MultiModelService._update_performance`
(multi_model_service.py:166-180): on success increment the count and take
the incremental mean with the post-increment count; on failure increment
only the failure count. -/
def updateEntry (e : PerfEntry) (success : Bool) (response_time : ℚ) : PerfEntry :=
  if success then
    let s : Nat := e.success + 1
    { e with success := s,
             avg_response_time := (e.avg_response_time * ((s : ℚ) - 1) + response_time) / (s : ℚ) }
  else { e with failure := e.failure + 1 }

/-- `MultiModelService._update_performance`: dispatch on the model name,
returning the state unchanged for an unknown name. -/
def update_performance (p : Perf) (model : String) (success : Bool) (response_time : ℚ) : Perf :=
  if model = "anthropic" then { p with anthropic := updateEntry p.anthropic success response_time }
  else if model = "goose_ai" then { p with goose_ai := updateEntry p.goose_ai success response_time }
  else p

/-- The GooseAI fallback stage of `generate_conversation_response`
(multi_model_service.py:66-82). -/
def gooseTextStage (env : Env) (p : Perf) : String × Perf :=
  if env.gooseAvailable then
    match GooseAIClient.generate_conversation_response env with
    | .ok response => (response, update_performance p "goose_ai" true env.gooseTime)
    | .error _ => (placeholderText, update_performance p "goose_ai" false 0)
  else (placeholderText, p)

/-- `MultiModelService.generate_conversation_response`
(multi_model_service.py:46-82).  Every provider call sits in a
`try/except`, so the function is total: it always returns a string. -/
def generate_conversation_response (env : Env) (prompt : String) (p : Perf) : String × Perf :=
  if env.anthropicConfigured then
    match AnthropicClient.generate_conversation_response env with
    | .ok response => (response, update_performance p "anthropic" true env.anthropicTime)
    | .error _ => gooseTextStage env (update_performance p "anthropic" false 0)
  else gooseTextStage env p

/-- The dict returned when both providers fail for document generation
(multi_model_service.py:120-130); it coincides with the GooseAI client's
own failure dict. -/
def doc_failure_fallback : Json := Json.obj
  [("project_name", .str "Project"),
   ("overview", .str "Documentation generation failed. Please try again."),
   ("setup_guide", .str ""),
   ("implementation_guide", .str ""),
   ("backend", .str ""),
   ("frontend", .str ""),
   ("config", .str ""),
   ("dependencies", .arr []),
   ("github_issues", .arr [])]

/-- The GooseAI fallback stage of `generate_complete_project`
(multi_model_service.py:104-130). -/
def gooseDocStage (env : Env) (p : Perf) : Json × Perf :=
  if env.gooseAvailable then
    match GooseAIClient.generate_complete_project env with
    | .ok response => (response, update_performance p "goose_ai" true env.gooseTime)
    | .error _ => (doc_failure_fallback, update_performance p "goose_ai" false 0)
  else (doc_failure_fallback, p)

/-- `MultiModelService.generate_complete_project`
(multi_model_service.py:84-130).  The idea and history arguments only feed
the opaque remote prompt, whose outcome `Env` carries. -/
def generate_complete_project {α : Type} (env : Env) (_project_idea : String)
    (_conversation_history : List α) (p : Perf) : Json × Perf :=
  if env.anthropicConfigured then
    match AnthropicClient.generate_complete_project env with
    | .ok response => (response, update_performance p "anthropic" true env.anthropicTime)
    | .error _ => gooseDocStage env (update_performance p "anthropic" false 0)
  else gooseDocStage env p

end MultiModelService

/-! Conversation store: ConversationService. -/

/-- One transcript record (`role`/`content`/`timestamp` dicts in the source). -/
structure Message where
  role : String
  content : String
  timestamp : ℚ

/-- One conversation dict.  `documentation` models the presence of the
optional `"documentation"` key. -/
structure Conversation where
  id : String
  project_idea : String
  messages : List Message
  started_at : ℚ
  last_activity : ℚ
  phase : String
  documentation : Option Json

/-- The value returned to the caller by `start_conversation` and
`continue_conversation`. -/
structure TurnResult where
  conversation_id : String
  response : String
  phase : String

/-- The mutable state of a `ConversationService`: its `conversations` dict
and its `MultiModelService`'s performance counters. -/
structure ServiceState where
  conversations : List (String × Conversation)
  perf : Perf

namespace ConversationService

/-- Lookup in the `conversations` dict (first matching key). -/
def lookupConv : List (String × Conversation) → String → Option Conversation
  | [], _ => none
  | (k, v) :: rest, cid => if k = cid then some v else lookupConv rest cid

/-- Python dict assignment: replace the entry in place when the key exists,
otherwise append. -/
def insertConv : List (String × Conversation) → String → Conversation → List (String × Conversation)
  | [], cid, c => [(cid, c)]
  | (k, v) :: rest, cid, c =>
    if k = cid then (cid, c) :: rest else (k, v) :: insertConv rest cid c

/-- `ConversationService.start_conversation` (conversation_service.py:23-59).
`now` stands for `datetime.utcnow()` and `new_id` for `str(uuid.uuid4())`. -/
def start_conversation (env : Env) (now : ℚ) (new_id : String) (st : ServiceState)
    (project_idea : String) : TurnResult × ServiceState :=
  let prompt := "You are a helpful AI assistant. A user wants to build: " ++ project_idea ++
    "\n\nRespond naturally and helpfully. Understand their project and be ready to help them with documentation when they ask for it."
  let rp := MultiModelService.generate_conversation_response env prompt st.perf
  let conversation : Conversation :=
    { id := new_id, project_idea := project_idea,
      messages := [{ role := "user", content := project_idea, timestamp := now },
                   { role := "assistant", content := rp.1, timestamp := now }],
      started_at := now, last_activity := now,
      phase := "conversation", documentation := none }
  ({ conversation_id := new_id, response := rp.1, phase := "conversation" },
   { conversations := insertConv st.conversations new_id conversation, perf := rp.2 })

/-- The keyword list of `ConversationService._should_generate_documentation`
(conversation_service.py:145-154), verbatim. -/
def keywords : List String :=
  ["generate docs", "create docs", "generate documentation", "create documentation",
   "docs ready", "documentation ready", "generate project docs", "create project docs",
   "ready for docs", "ready for documentation", "generate everything", "create everything",
   "docs folder", "documentation folder", "project docs", "project documentation",
   "generate project", "create project", "project ready", "docs please",
   "yes", "yes please", "sure", "okay", "go ahead", "generate", "create", "do it",
   "solution", "ideal solution", "best solution", "provide solution", "give me solution",
   "help me", "show me", "tell me", "what should", "how should", "recommend"]

/-- `ConversationService._should_generate_documentation`
(conversation_service.py:143-155): case-insensitive substring test against
the keyword list. -/
def should_generate_documentation (message : String) : Bool :=
  keywords.any (fun keyword => pyContains (pyLower message) keyword)

/-- `ConversationService._build_context` (conversation_service.py:157-167):
last six messages, each content truncated to 150 characters. -/
def build_context (conversation : Conversation) : String :=
  let recent := conversation.messages.drop (conversation.messages.length - 6)
  let parts := recent.map (fun msg =>
    let role := if msg.role = "user" then "User" else "Assistant"
    let content := if 150 < msg.content.toList.length
      then pySlice msg.content 0 150 ++ "..." else msg.content
    role ++ ": " ++ content)
  String.intercalate " | " parts

/-- The response computation inside the `try/except` of the documentation
branch of `continue_conversation` (conversation_service.py:90-106): the
f-string calls `.get` on the stored document, which raises on a non-dict
(the only raise point of the `try`, since the orchestrator calls are
total); the `except` asks for the fixed retry reply instead. -/
def doc_ack_response (env : Env) (documentation : Json) (p : Perf) : String × Perf :=
  match documentation with
  | Json.obj _ =>
    MultiModelService.generate_conversation_response env
      ("Perfect! I've created documentation for your project: " ++
        (documentation.getD "project_name" (Json.str "Project")).pyStr ++
        "\n\nYour docs/ folder includes:\n- Project overview\n- Backend and frontend guides\n- Setup instructions\n- Implementation guide\n\nThe documentation is ready for download!") p
  | _ =>
    MultiModelService.generate_conversation_response env
      "I encountered an issue creating the documentation. Let me try again or you can ask me to generate it later." p

/-- The common tail of `continue_conversation` (conversation_service.py:121-141):
append the assistant reply, refresh `last_activity`, recompute the phase
from the presence of the `"documentation"` key, store, and answer. -/
def finish_turn (now : ℚ) (conversation_id : String) (response : String)
    (conversation : Conversation) (p : Perf) (st : ServiceState) : TurnResult × ServiceState :=
  let phase := if conversation.documentation.isSome then "documentation_generated" else "conversation"
  let conversation2 := { conversation with
    messages := conversation.messages ++ [{ role := "assistant", content := response, timestamp := now }],
    last_activity := now, phase := phase }
  ({ conversation_id := conversation_id, response := response, phase := phase },
   { conversations := insertConv st.conversations conversation_id conversation2, perf := p })

/-- `ConversationService.continue_conversation` (conversation_service.py:61-141). -/
def continue_conversation (env : Env) (now : ℚ) (new_id : String) (st : ServiceState)
    (conversation_id user_message : String) : TurnResult × ServiceState :=
  match lookupConv st.conversations conversation_id with
  | none => start_conversation env now new_id st user_message
  | some conversation0 =>
    let conversation1 := { conversation0 with
      messages := conversation0.messages ++ [{ role := "user", content := user_message, timestamp := now }] }
    if should_generate_documentation user_message then
      let dp := MultiModelService.generate_complete_project env conversation1.project_idea
        conversation1.messages st.perf
      let conversation2 := { conversation1 with
        documentation := some dp.1, phase := "documentation_generated" }
      let rp := doc_ack_response env dp.1 dp.2
      finish_turn now conversation_id rp.1 conversation2 rp.2 st
    else
      let context := build_context conversation1
      let rp := MultiModelService.generate_conversation_response env
        ("You are a helpful AI assistant continuing a conversation about a project.\n\nProject: " ++
          conversation1.project_idea ++ "\nRecent conversation: " ++ context ++
          "\nUser's input: " ++ user_message ++
          "\n\nRespond naturally and helpfully. If they ask for documentation, solutions, or help with implementation, be ready to help.") st.perf
      finish_turn now conversation_id rp.1 conversation1 rp.2 st

/-- `ConversationService.get_conversation` (conversation_service.py:169-171);
the Python `{}` default is modelled by `none`. -/
def get_conversation (st : ServiceState) (conversation_id : String) : Option Conversation :=
  lookupConv st.conversations conversation_id

/-- `ConversationService.cleanup_expired_conversations`
(conversation_service.py:173-186): delete every conversation whose
`last_activity` is strictly older than `now - max_age_hours * 3600`. -/
def cleanup_expired_conversations (now : ℚ) (max_age_hours : ℚ)
    (conversations : List (String × Conversation)) : List (String × Conversation) :=
  let cutoff := now - max_age_hours * 3600
  conversations.filter (fun kv => !(decide (kv.2.last_activity < cutoff)))

end ConversationService

end ProjectLauncher

/-! Shared facts and concrete environments used by the claim theorems. -/

namespace ProjectLauncher

/-- The Anthropic conversation client never raises: its Python body is one
big `try/except Exception` returning the placeholder. -/
theorem anthropic_text_never_raises (env : Env) :
    ∃ s, AnthropicClient.generate_conversation_response env = Except.ok s := by
  unfold AnthropicClient.generate_conversation_response AnthropicClient.messages_create
  cases hc : env.anthropicConfigured <;> [skip; cases env.anthropicText] <;> simp

/-- Environment with both providers configured and answering. -/
def envUp : Env :=
  ⟨true, true, .ok "Hello there!", .ok " Goose says hi. ", 1, 2, .ok "doc text", fun _ => none⟩

/-- Environment with neither provider configured. -/
def envDown : Env :=
  ⟨false, false, .raise "boom", .raise "boom", 0, 0, .raise "boom", fun _ => none⟩

/-- Environment where Anthropic is unconfigured and GooseAI answers. -/
def envGooseOnly : Env :=
  ⟨false, true, .raise "unused", .ok "hi from goose", 0, 0, .raise "unused", fun _ => none⟩

/-- Environment where both credentials exist but both remote calls error. -/
def envRemoteErr : Env :=
  ⟨true, true, .raise "timeout", .raise "timeout", 0, 0, .raise "timeout", fun _ => none⟩

/-- C1: for every truthful availability combination, the orchestrator's
text-generation call returns a non-empty string (its embedding is a total
function, mirroring the catch-all `try/except` structure, so it can never
raise), and whenever neither provider is up the returned string is exactly
the fixed placeholder. -/
theorem C1_generate_text_nonempty_and_placeholder (env : Env) (prompt : String) (p : Perf)
    (hA : ∀ t, env.anthropicText = Remote.ok t → t ≠ "")
    (hG : ∀ t, env.gooseText = Remote.ok t → pyStrip t ≠ "") :
    (MultiModelService.generate_conversation_response env prompt p).1 ≠ "" ∧
    (((env.anthropicConfigured = true → ∀ t, env.anthropicText ≠ Remote.ok t) ∧
      (env.gooseAvailable = true → ∀ t, env.gooseText ≠ Remote.ok t)) →
      (MultiModelService.generate_conversation_response env prompt p).1 = placeholderText) := by
  have hph : placeholderText ≠ "" := by decide
  obtain ⟨aC, gA, aT, gT, aTime, gTime, gD, lds⟩ := env
  simp only [MultiModelService.generate_conversation_response,
    MultiModelService.gooseTextStage, AnthropicClient.generate_conversation_response,
    AnthropicClient.messages_create, GooseAIClient.generate_conversation_response] at *
  cases aC <;> cases gA <;> cases aT <;> cases gT <;>
    simp_all

/-- C1 witness: with both providers down the call returns the placeholder. -/
theorem C1_witness :
    (MultiModelService.generate_conversation_response envDown "hi" initPerf).1 ≠ "" ∧
    (((envDown.anthropicConfigured = true → ∀ t, envDown.anthropicText ≠ Remote.ok t) ∧
      (envDown.gooseAvailable = true → ∀ t, envDown.gooseText ≠ Remote.ok t)) →
      (MultiModelService.generate_conversation_response envDown "hi" initPerf).1 = placeholderText) :=
  C1_generate_text_nonempty_and_placeholder envDown "hi" initPerf
    (by intro t h; simp [envDown] at h) (by intro t h; simp [envDown] at h)

/-- C3 counterexample: with Anthropic unconfigured (one of the failure cases
the claim covers) and GooseAI up, the orchestrator answers from GooseAI but
records no Anthropic failure at all: the failure counter stays 0 where the
claim requires an increment. -/
theorem C3_counterexample :
    envGooseOnly.anthropicConfigured = false ∧
    (MultiModelService.generate_conversation_response envGooseOnly "p" initPerf).2.anthropic.failure = 0 ∧
    (MultiModelService.generate_conversation_response envGooseOnly "p" initPerf).2.anthropic.success = 0 ∧
    (MultiModelService.generate_conversation_response envGooseOnly "p" initPerf).1 = "hi from goose" := by
  refine ⟨rfl, rfl, rfl, rfl⟩

/-- C3 amended: the orchestrator never records an Anthropic failure in the
text path.  When Anthropic is unconfigured it is skipped silently (no
counter touched) and GooseAI is tried; when Anthropic is configured its
client catches every remote error internally and returns `.ok`, so the
orchestrator records an Anthropic success and returns without trying
GooseAI. -/
theorem C3_amended_no_failure_recorded (env : Env) (prompt : String) (p : Perf) :
    ((MultiModelService.generate_conversation_response env prompt p).2.anthropic.failure
        = p.anthropic.failure) ∧
    (env.anthropicConfigured = false →
      MultiModelService.generate_conversation_response env prompt p
        = MultiModelService.gooseTextStage env p) ∧
    (env.anthropicConfigured = true →
      ∃ r, AnthropicClient.generate_conversation_response env = Except.ok r ∧
        MultiModelService.generate_conversation_response env prompt p
          = (r, MultiModelService.update_performance p "anthropic" true env.anthropicTime)) := by
  obtain ⟨s, hs⟩ := anthropic_text_never_raises env
  refine ⟨?_, ?_, ?_⟩
  · cases hc : env.anthropicConfigured with
    | false =>
      simp only [MultiModelService.generate_conversation_response, hc, Bool.false_eq_true,
        if_false, MultiModelService.gooseTextStage]
      cases hg : env.gooseAvailable with
      | false => simp
      | true =>
        cases hr : GooseAIClient.generate_conversation_response env <;>
          simp [MultiModelService.update_performance, MultiModelService.updateEntry]
    | true =>
      simp [MultiModelService.generate_conversation_response, hc, hs,
        MultiModelService.update_performance, MultiModelService.updateEntry]
  · intro hc
    simp [MultiModelService.generate_conversation_response, hc]
  · intro hc
    exact ⟨s, hs, by simp [MultiModelService.generate_conversation_response, hc, hs]⟩

/-- C3 witness: with Anthropic configured and failing remotely, the call
still records no Anthropic failure and returns without consulting GooseAI. -/
theorem C3_amended_witness :
    ((MultiModelService.generate_conversation_response envRemoteErr "p" initPerf).2.anthropic.failure
        = initPerf.anthropic.failure) ∧
    (envRemoteErr.anthropicConfigured = false →
      MultiModelService.generate_conversation_response envRemoteErr "p" initPerf
        = MultiModelService.gooseTextStage envRemoteErr initPerf) ∧
    (envRemoteErr.anthropicConfigured = true →
      ∃ r, AnthropicClient.generate_conversation_response envRemoteErr = Except.ok r ∧
        MultiModelService.generate_conversation_response envRemoteErr "p" initPerf
          = (r, MultiModelService.update_performance initPerf "anthropic" true envRemoteErr.anthropicTime)) :=
  C3_amended_no_failure_recorded envRemoteErr "p" initPerf

/-- C4 counterexample: with no credential configured the Anthropic client
returns the placeholder text as an ordinary result instead of failing, and
with a credential but an erroring remote call both clients likewise return
the placeholder text rather than an error. -/
theorem C4_counterexample :
    AnthropicClient.generate_conversation_response envDown = Except.ok placeholderText ∧
    AnthropicClient.generate_conversation_response envRemoteErr = Except.ok placeholderText ∧
    GooseAIClient.generate_conversation_response envRemoteErr = Except.ok placeholderText := by
  refine ⟨rfl, rfl, rfl⟩

/-- C4 amended: `AnthropicClient.generate_conversation_response` never
raises — on a missing credential or an erroring remote call it returns the
fixed placeholder text, and on a successful remote call the remote text.
`GooseAIClient.generate_conversation_response` raises exactly when no
credential is configured; a remote error is converted into the placeholder
text, and a successful call returns the stripped remote text. -/
theorem C4_amended_client_error_contract (env : Env) :
    (env.anthropicConfigured = false →
      AnthropicClient.generate_conversation_response env = Except.ok placeholderText) ∧
    (∀ m, env.anthropicText = Remote.raise m →
      AnthropicClient.generate_conversation_response env = Except.ok placeholderText) ∧
    (∀ t, env.anthropicConfigured = true → env.anthropicText = Remote.ok t →
      AnthropicClient.generate_conversation_response env = Except.ok t) ∧
    (env.gooseAvailable = false →
      GooseAIClient.generate_conversation_response env
        = Except.error "GooseAI not available - missing API key") ∧
    (∀ m, env.gooseAvailable = true → env.gooseText = Remote.raise m →
      GooseAIClient.generate_conversation_response env = Except.ok placeholderText) ∧
    (∀ t, env.gooseAvailable = true → env.gooseText = Remote.ok t →
      GooseAIClient.generate_conversation_response env = Except.ok (pyStrip t)) := by
  obtain ⟨aC, gA, aT, gT, aTime, gTime, gD, lds⟩ := env
  refine ⟨?_, ?_, ?_, ?_, ?_, ?_⟩ <;>
    simp only [AnthropicClient.generate_conversation_response, AnthropicClient.messages_create,
      GooseAIClient.generate_conversation_response] <;>
    cases aC <;> cases gA <;> cases aT <;> cases gT <;> simp_all

/-- C4 amended witness: both clients evaluated at the erroring-remote
environment and at the unconfigured environment. -/
theorem C4_amended_witness :
    ((envRemoteErr.anthropicConfigured = false →
      AnthropicClient.generate_conversation_response envRemoteErr = Except.ok placeholderText) ∧
    (∀ m, envRemoteErr.anthropicText = Remote.raise m →
      AnthropicClient.generate_conversation_response envRemoteErr = Except.ok placeholderText) ∧
    (∀ t, envRemoteErr.anthropicConfigured = true → envRemoteErr.anthropicText = Remote.ok t →
      AnthropicClient.generate_conversation_response envRemoteErr = Except.ok t) ∧
    (envRemoteErr.gooseAvailable = false →
      GooseAIClient.generate_conversation_response envRemoteErr
        = Except.error "GooseAI not available - missing API key") ∧
    (∀ m, envRemoteErr.gooseAvailable = true → envRemoteErr.gooseText = Remote.raise m →
      GooseAIClient.generate_conversation_response envRemoteErr = Except.ok placeholderText) ∧
    (∀ t, envRemoteErr.gooseAvailable = true → envRemoteErr.gooseText = Remote.ok t →
      GooseAIClient.generate_conversation_response envRemoteErr = Except.ok (pyStrip t))) ∧
    GooseAIClient.generate_conversation_response envDown
      = Except.error "GooseAI not available - missing API key" :=
  ⟨C4_amended_client_error_contract envRemoteErr,
   (C4_amended_client_error_contract envDown).2.2.2.1 rfl⟩

end ProjectLauncher

namespace ProjectLauncher

/-- C2: for any raw text containing a JSON code fence with a closing fence,
when the stripped substring between the fence markers parses as JSON both
parsers return exactly that parsed value, with no further validation; and
for any raw text whose extracted candidate is not valid JSON, both parsers
return a fallback document whose `overview` (GooseAI) or `description`
(Anthropic) field is the raw input verbatim and whose structured fields
are empty. -/
theorem C2_parser_extraction_and_fallback (loads : String → Option Json) (t : String) :
    (∀ j : Json, pyContains t "```json" = true →
      pyFindFrom t "```" (pyFind t "```json" + 7).toNat ≠ -1 →
      loads (pyStrip (pySlice t (pyFind t "```json" + 7)
        (pyFindFrom t "```" (pyFind t "```json" + 7).toNat))) = some j →
      GooseAIClient.parse_response loads t = j ∧
      AnthropicClient.parse_claude_response loads t = j) ∧
    (loads (AnthropicClient.extractCandidate t) = none →
      Json.getD (GooseAIClient.parse_response loads t) "overview" Json.null = Json.str t ∧
      Json.getD (GooseAIClient.parse_response loads t) "dependencies" Json.null = Json.arr [] ∧
      Json.getD (GooseAIClient.parse_response loads t) "github_issues" Json.null = Json.arr [] ∧
      Json.getD (AnthropicClient.parse_claude_response loads t) "description" Json.null = Json.str t ∧
      Json.getD (AnthropicClient.parse_claude_response loads t) "repositories" Json.null = Json.arr [] ∧
      Json.getD (AnthropicClient.parse_claude_response loads t) "next_steps" Json.null = Json.arr []) := by
  constructor
  · intro j hfence _hclose hloads
    have hcand : AnthropicClient.extractCandidate t
        = pyStrip (pySlice t (pyFind t "```json" + 7)
            (pyFindFrom t "```" (pyFind t "```json" + 7).toNat)) := by
      simp [AnthropicClient.extractCandidate, hfence]
    constructor
    · simp [GooseAIClient.parse_response, hcand, hloads]
    · simp [AnthropicClient.parse_claude_response, hcand, hloads]
  · intro hnone
    simp [GooseAIClient.parse_response, AnthropicClient.parse_claude_response, hnone,
      Json.getD, jsonGetField]

/-- A concrete stand-in for `json.loads` recognising exactly the text
`null`. -/
def demoLoads : String → Option Json :=
  fun s => if s = "null" then some Json.null else none

/-- C2 witness: a fenced `null` document is extracted and parsed, and a
non-JSON text lands in the verbatim fallback. -/
theorem C2_witness :
    (GooseAIClient.parse_response demoLoads "```json\nnull\n```" = Json.null ∧
     AnthropicClient.parse_claude_response demoLoads "```json\nnull\n```" = Json.null) ∧
    (Json.getD (GooseAIClient.parse_response demoLoads "plain text") "overview" Json.null
        = Json.str "plain text" ∧
     Json.getD (AnthropicClient.parse_claude_response demoLoads "plain text") "description" Json.null
        = Json.str "plain text") := by
  refine ⟨(C2_parser_extraction_and_fallback demoLoads "```json\nnull\n```").1 Json.null
      (by decide) (by decide) (by rfl), ?_, ?_⟩
  · exact ((C2_parser_extraction_and_fallback demoLoads "plain text").2 (by rfl)).1
  · exact ((C2_parser_extraction_and_fallback demoLoads "plain text").2 (by rfl)).2.2.2.1

end ProjectLauncher

namespace ProjectLauncher

/-- Dict assignment then lookup: the assigned key reads back the new value,
every other key is untouched. -/
theorem lookup_insertConv (store : List (String × Conversation)) (k : String)
    (c : Conversation) (k2 : String) :
    ConversationService.lookupConv (ConversationService.insertConv store k c) k2 =
      if k = k2 then some c else ConversationService.lookupConv store k2 := by
  induction store with
  | nil => simp [ConversationService.insertConv, ConversationService.lookupConv]
  | cons kv rest ih =>
    obtain ⟨a, b⟩ := kv
    by_cases hak : a = k
    · subst hak
      simp only [ConversationService.insertConv, if_pos rfl]
      by_cases hk2 : a = k2 <;> simp [ConversationService.lookupConv, hk2]
    · simp only [ConversationService.insertConv, if_neg hak]
      by_cases hk2 : a = k2
      · subst hk2
        simp [ConversationService.lookupConv, Ne.symm hak]
      · simp [ConversationService.lookupConv, hk2, ih]

/-- C5: on an existing conversation without a stored document, a continue
call saying exactly "yes please" generates documentation and moves the
phase to `documentation_generated`, while "what's the weather" generates
none and leaves the phase at `conversation`, in the returned value and in
the store alike. -/
theorem C5_keyword_trigger (env : Env) (now : ℚ) (new_id : String) (st : ServiceState)
    (cid : String) (conv : Conversation)
    (h : ConversationService.lookupConv st.conversations cid = some conv)
    (hdoc : conv.documentation = none) :
    ((ConversationService.continue_conversation env now new_id st cid "yes please").1.phase
        = "documentation_generated" ∧
      ∃ c, ConversationService.lookupConv
          (ConversationService.continue_conversation env now new_id st cid "yes please").2.conversations cid
          = some c ∧ c.documentation.isSome = true ∧ c.phase = "documentation_generated") ∧
    ((ConversationService.continue_conversation env now new_id st cid "what's the weather").1.phase
        = "conversation" ∧
      ∃ c, ConversationService.lookupConv
          (ConversationService.continue_conversation env now new_id st cid "what's the weather").2.conversations cid
          = some c ∧ c.documentation = none ∧ c.phase = "conversation") := by
  have htr : ConversationService.should_generate_documentation "yes please" = true := by decide
  have hntr : ConversationService.should_generate_documentation "what's the weather" = false := by
    decide
  constructor
  · simp only [ConversationService.continue_conversation, h, htr, if_true,
      ConversationService.finish_turn, lookup_insertConv, if_pos rfl]
    simp
  · simp only [ConversationService.continue_conversation, h, hntr, Bool.false_eq_true, if_false,
      ConversationService.finish_turn, lookup_insertConv, if_pos rfl]
    simp [hdoc]

end ProjectLauncher

namespace ProjectLauncher

/-- A stored conversation without documentation, for witnesses. -/
def convW : Conversation :=
  ⟨"c1", "a recipe app", [], 0, 0, "conversation", none⟩

/-- A service state holding only `convW`. -/
def stW : ServiceState := ⟨[("c1", convW)], initPerf⟩

/-- C5 witness: both trigger messages evaluated on a one-conversation store. -/
theorem C5_witness :
    ((ConversationService.continue_conversation envUp 5 "n1" stW "c1" "yes please").1.phase
        = "documentation_generated" ∧
      ∃ c, ConversationService.lookupConv
          (ConversationService.continue_conversation envUp 5 "n1" stW "c1" "yes please").2.conversations "c1"
          = some c ∧ c.documentation.isSome = true ∧ c.phase = "documentation_generated") ∧
    ((ConversationService.continue_conversation envUp 5 "n1" stW "c1" "what's the weather").1.phase
        = "conversation" ∧
      ∃ c, ConversationService.lookupConv
          (ConversationService.continue_conversation envUp 5 "n1" stW "c1" "what's the weather").2.conversations "c1"
          = some c ∧ c.documentation = none ∧ c.phase = "conversation") :=
  C5_keyword_trigger envUp 5 "n1" stW "c1" convW (by rfl) (by rfl)

/-- C6: a continue call on an identifier absent from the store returns the
very same result and store state as a start call with the message as the
idea. -/
theorem C6_unknown_id_behaves_as_start (env : Env) (now : ℚ) (new_id : String)
    (st : ServiceState) (cid msg : String)
    (h : ConversationService.lookupConv st.conversations cid = none) :
    ConversationService.continue_conversation env now new_id st cid msg
      = ConversationService.start_conversation env now new_id st msg := by
  simp only [ConversationService.continue_conversation, h]

/-- C6 witness: on the empty store, continue with any id is exactly start. -/
theorem C6_witness :
    ConversationService.continue_conversation envUp 3 "fresh" ⟨[], initPerf⟩ "nope" "a chat app"
      = ConversationService.start_conversation envUp 3 "fresh" ⟨[], initPerf⟩ "a chat app" :=
  C6_unknown_id_behaves_as_start envUp 3 "fresh" ⟨[], initPerf⟩ "nope" "a chat app" (by rfl)

/-- C9: once a conversation carries a stored documentation value, any
continue call — triggering or not — answers with phase
`documentation_generated` and leaves the stored conversation with its
documentation present and that same phase. -/
theorem C9_phase_monotonicity (env : Env) (now : ℚ) (new_id : String) (st : ServiceState)
    (cid msg : String) (conv : Conversation)
    (h : ConversationService.lookupConv st.conversations cid = some conv)
    (hdoc : conv.documentation.isSome = true) :
    (ConversationService.continue_conversation env now new_id st cid msg).1.phase
        = "documentation_generated" ∧
    ∃ c, ConversationService.lookupConv
        (ConversationService.continue_conversation env now new_id st cid msg).2.conversations cid
        = some c ∧ c.documentation.isSome = true ∧ c.phase = "documentation_generated" := by
  cases htr : ConversationService.should_generate_documentation msg
  · simp only [ConversationService.continue_conversation, h, htr, Bool.false_eq_true, if_false,
      ConversationService.finish_turn, lookup_insertConv, if_pos rfl]
    simp [hdoc]
  · simp only [ConversationService.continue_conversation, h, htr, if_true,
      ConversationService.finish_turn, lookup_insertConv, if_pos rfl]
    simp

/-- A stored conversation that already carries documentation. -/
def convDoc : Conversation :=
  ⟨"c2", "a recipe app", [], 0, 0, "documentation_generated", some (Json.obj [])⟩

/-- C9 witness: a non-triggering message on a documented conversation keeps
the phase at `documentation_generated`. -/
theorem C9_witness :
    (ConversationService.continue_conversation envUp 7 "n2" ⟨[("c2", convDoc)], initPerf⟩
        "c2" "what's the weather").1.phase = "documentation_generated" ∧
    ∃ c, ConversationService.lookupConv
        (ConversationService.continue_conversation envUp 7 "n2" ⟨[("c2", convDoc)], initPerf⟩
          "c2" "what's the weather").2.conversations "c2"
        = some c ∧ c.documentation.isSome = true ∧ c.phase = "documentation_generated" :=
  C9_phase_monotonicity envUp 7 "n2" ⟨[("c2", convDoc)], initPerf⟩ "c2" "what's the weather"
    convDoc (by rfl) (by rfl)

/-- C10: the documentation trigger is a case-insensitive substring test, so
any message containing one of the generic keywords "sure", "help me",
"show me", "create" or "generate" triggers it; in particular a continue
call with "help me choose a database" on any existing conversation stores
a generated document and answers with phase `documentation_generated`. -/
theorem C10_trigger_breadth :
    (∀ m : String,
      (["sure", "help me", "show me", "create", "generate"].any
        (fun kw => pyContains (pyLower m) kw)) = true →
      ConversationService.should_generate_documentation m = true) ∧
    (∀ (env : Env) (now : ℚ) (new_id : String) (st : ServiceState) (cid : String)
        (conv : Conversation),
      ConversationService.lookupConv st.conversations cid = some conv →
      (ConversationService.continue_conversation env now new_id st cid
          "help me choose a database").1.phase = "documentation_generated" ∧
      ∃ c, ConversationService.lookupConv
          (ConversationService.continue_conversation env now new_id st cid
            "help me choose a database").2.conversations cid
          = some c ∧ c.documentation.isSome = true) := by
  have hsub : ∀ kw ∈ ["sure", "help me", "show me", "create", "generate"],
      kw ∈ ConversationService.keywords := by decide
  constructor
  · intro m hm
    rw [List.any_eq_true] at hm
    obtain ⟨kw, hmem, hc⟩ := hm
    exact List.any_eq_true.2 ⟨kw, hsub kw hmem, hc⟩
  · intro env now new_id st cid conv h
    have htr : ConversationService.should_generate_documentation "help me choose a database"
        = true := by decide
    simp only [ConversationService.continue_conversation, h, htr, if_true,
      ConversationService.finish_turn, lookup_insertConv, if_pos rfl]
    simp

/-- C10 witness: the trigger fires on "help me choose a database" and the
continue call stores a document. -/
theorem C10_witness :
    ConversationService.should_generate_documentation "help me choose a database" = true ∧
    ((ConversationService.continue_conversation envUp 9 "n3" stW "c1"
        "help me choose a database").1.phase = "documentation_generated" ∧
      ∃ c, ConversationService.lookupConv
          (ConversationService.continue_conversation envUp 9 "n3" stW "c1"
            "help me choose a database").2.conversations "c1"
          = some c ∧ c.documentation.isSome = true) :=
  ⟨C10_trigger_breadth.1 "help me choose a database" (by decide),
   C10_trigger_breadth.2 envUp 9 "n3" stW "c1" convW (by rfl)⟩

end ProjectLauncher

namespace ProjectLauncher

/-- Running-mean invariant of the success branch of `_update_performance`:
after folding successes with latencies `ts`, the success count grows by
`|ts|`, the failure count is untouched, and `avg * count` accumulates the
latency sum. -/
theorem foldl_updateEntry_stats (ts : List ℚ) (e : PerfEntry) :
    ((ts.foldl (fun acc t => MultiModelService.updateEntry acc true t) e).success
        = e.success + ts.length) ∧
    ((ts.foldl (fun acc t => MultiModelService.updateEntry acc true t) e).failure = e.failure) ∧
    ((ts.foldl (fun acc t => MultiModelService.updateEntry acc true t) e).avg_response_time
        * ((e.success : ℚ) + (ts.length : ℚ))
      = e.avg_response_time * (e.success : ℚ) + ts.sum) := by
  induction ts generalizing e with
  | nil => simp
  | cons t ts ih =>
    obtain ⟨ihs, ihf, iha⟩ := ih (MultiModelService.updateEntry e true t)
    have hsucc : (MultiModelService.updateEntry e true t).success = e.success + 1 := rfl
    have hfail : (MultiModelService.updateEntry e true t).failure = e.failure := rfl
    have hs : ((e.success + 1 : ℕ) : ℚ) ≠ 0 := by exact_mod_cast Nat.succ_ne_zero e.success
    have key : (MultiModelService.updateEntry e true t).avg_response_time
        * ((MultiModelService.updateEntry e true t).success : ℚ)
        = e.avg_response_time * (e.success : ℚ) + t := by
      show (e.avg_response_time * (((e.success + 1 : ℕ) : ℚ) - 1) + t) / ((e.success + 1 : ℕ) : ℚ)
          * (((e.success + 1 : ℕ) : ℚ)) = e.avg_response_time * (e.success : ℚ) + t
      rw [div_mul_cancel₀ _ hs]
      push_cast
      ring
    have hcast : ((MultiModelService.updateEntry e true t).success : ℚ) = (e.success : ℚ) + 1 := by
      rw [hsucc]; push_cast; ring
    refine ⟨?_, ?_, ?_⟩
    · rw [List.foldl_cons, ihs, hsucc, List.length_cons]; omega
    · rw [List.foldl_cons, ihf, hfail]
    · rw [List.foldl_cons]
      rw [key, hcast] at iha
      simp only [List.length_cons, List.sum_cons]
      push_cast
      linear_combination iha

/-- Folding `_update_performance` on `"anthropic"` acts on the anthropic
entry alone. -/
theorem foldl_update_anthropic (ts : List ℚ) (p : Perf) :
    (ts.foldl (fun q t => MultiModelService.update_performance q "anthropic" true t) p).anthropic
      = ts.foldl (fun e t => MultiModelService.updateEntry e true t) p.anthropic := by
  induction ts generalizing p with
  | nil => rfl
  | cons t ts ih =>
    rw [List.foldl_cons, List.foldl_cons, ih]
    simp [MultiModelService.update_performance]

/-- Folding `_update_performance` on `"goose_ai"` acts on the goose entry
alone. -/
theorem foldl_update_goose (ts : List ℚ) (p : Perf) :
    (ts.foldl (fun q t => MultiModelService.update_performance q "goose_ai" true t) p).goose_ai
      = ts.foldl (fun e t => MultiModelService.updateEntry e true t) p.goose_ai := by
  induction ts generalizing p with
  | nil => rfl
  | cons t ts ih =>
    rw [List.foldl_cons, List.foldl_cons, ih]
    simp [MultiModelService.update_performance]

/-- C7: starting from a zero success count, N consecutive recorded
successes with latencies `ts` leave `avg_response_time` at exactly the
arithmetic mean of `ts` (exact in ℚ) and the success count at N, for
either provider; a recorded failure increments only the failure counter
and leaves the success count and the average untouched. -/
theorem C7_incremental_mean (ts : List ℚ) (p : Perf)
    (hA : p.anthropic.success = 0) (hG : p.goose_ai.success = 0) (hne : ts ≠ []) :
    ((ts.foldl (fun q t => MultiModelService.update_performance q "anthropic" true t) p).anthropic.avg_response_time
        = ts.sum / (ts.length : ℚ) ∧
      (ts.foldl (fun q t => MultiModelService.update_performance q "anthropic" true t) p).anthropic.success
        = ts.length) ∧
    ((ts.foldl (fun q t => MultiModelService.update_performance q "goose_ai" true t) p).goose_ai.avg_response_time
        = ts.sum / (ts.length : ℚ) ∧
      (ts.foldl (fun q t => MultiModelService.update_performance q "goose_ai" true t) p).goose_ai.success
        = ts.length) ∧
    (∀ (q : Perf) (rt : ℚ),
      (MultiModelService.update_performance q "anthropic" false rt).anthropic.failure
          = q.anthropic.failure + 1 ∧
      (MultiModelService.update_performance q "anthropic" false rt).anthropic.success
          = q.anthropic.success ∧
      (MultiModelService.update_performance q "anthropic" false rt).anthropic.avg_response_time
          = q.anthropic.avg_response_time ∧
      (MultiModelService.update_performance q "goose_ai" false rt).goose_ai.failure
          = q.goose_ai.failure + 1 ∧
      (MultiModelService.update_performance q "goose_ai" false rt).goose_ai.success
          = q.goose_ai.success ∧
      (MultiModelService.update_performance q "goose_ai" false rt).goose_ai.avg_response_time
          = q.goose_ai.avg_response_time) := by
  have hlen : ((ts.length : ℕ) : ℚ) ≠ 0 := by
    have : ts.length ≠ 0 := fun h0 => hne (List.length_eq_zero.mp h0)
    exact_mod_cast this
  obtain ⟨hsA, _, haA⟩ := foldl_updateEntry_stats ts p.anthropic
  obtain ⟨hsG, _, haG⟩ := foldl_updateEntry_stats ts p.goose_ai
  rw [hA] at hsA haA
  rw [hG] at hsG haG
  simp only [Nat.cast_zero, zero_add, mul_zero, zero_mul] at haA haG
  refine ⟨⟨?_, ?_⟩, ⟨?_, ?_⟩, ?_⟩
  · rw [foldl_update_anthropic, eq_div_iff hlen, haA]
  · rw [foldl_update_anthropic, hsA]; omega
  · rw [foldl_update_goose, eq_div_iff hlen, haG]
  · rw [foldl_update_goose, hsG]; omega
  · intro q rt
    exact ⟨rfl, rfl, rfl, rfl, rfl, rfl⟩

/-- C7 witness: two successes with latencies 2 and 4 on fresh counters. -/
theorem C7_witness :
    (([2, 4] : List ℚ).foldl
        (fun q t => MultiModelService.update_performance q "anthropic" true t) initPerf).anthropic.avg_response_time
      = ([2, 4] : List ℚ).sum / ((([2, 4] : List ℚ).length : ℕ) : ℚ) ∧
    (([2, 4] : List ℚ).foldl
        (fun q t => MultiModelService.update_performance q "anthropic" true t) initPerf).anthropic.success
      = ([2, 4] : List ℚ).length ∧
    (MultiModelService.update_performance initPerf "anthropic" false 0).anthropic.failure = 1 := by
  obtain ⟨⟨h1, h2⟩, _, hf⟩ :=
    C7_incremental_mean ([2, 4] : List ℚ) initPerf rfl rfl (by simp)
  exact ⟨h1, h2, (hf initPerf 0).1⟩

end ProjectLauncher

namespace ProjectLauncher

/-- Lookup misses every key absent from the dict. -/
theorem lookupConv_eq_none_of_not_mem (store : List (String × Conversation)) (cid : String)
    (h : cid ∉ store.map Prod.fst) : ConversationService.lookupConv store cid = none := by
  induction store with
  | nil => rfl
  | cons kv rest ih =>
    obtain ⟨a, b⟩ := kv
    simp only [List.map_cons, List.mem_cons, not_or] at h
    obtain ⟨h1, h2⟩ := h
    simp only [ConversationService.lookupConv, if_neg (Ne.symm h1)]
    exact ih h2

/-- The sweep never invents keys: its key list comes from the input store. -/
theorem cleanup_keys_subset (now maxh : ℚ) (store : List (String × Conversation)) (k : String)
    (h : k ∈ (ConversationService.cleanup_expired_conversations now maxh store).map Prod.fst) :
    k ∈ store.map Prod.fst := by
  refine (List.Sublist.map Prod.fst ?_).subset h
  exact List.filter_sublist store

/-- Lookup through the sweep: a present conversation disappears exactly
when its last activity is strictly older than the cutoff, and is returned
unchanged otherwise. -/
theorem cleanup_lookup (now maxh : ℚ) (store : List (String × Conversation))
    (hnd : (store.map Prod.fst).Nodup) (cid : String) (c : Conversation)
    (hc : ConversationService.lookupConv store cid = some c) :
    ConversationService.lookupConv
        (ConversationService.cleanup_expired_conversations now maxh store) cid
      = if c.last_activity < now - maxh * 3600 then none else some c := by
  induction store with
  | nil => simp [ConversationService.lookupConv] at hc
  | cons kv rest ih =>
    obtain ⟨a, b⟩ := kv
    simp only [List.map_cons, List.nodup_cons] at hnd
    obtain ⟨hna, hndr⟩ := hnd
    by_cases hac : a = cid
    · subst hac
      simp only [ConversationService.lookupConv, if_true, eq_self_iff_true,
        Option.some.injEq, ite_true] at hc
      obtain rfl := hc
      by_cases hexp : b.last_activity < now - maxh * 3600
      · have hdrop : (fun kv : String × Conversation =>
            !(decide (kv.2.last_activity < now - maxh * 3600))) (a, b) = false := by
          simp [hexp]
        rw [if_pos hexp]
        simp only [ConversationService.cleanup_expired_conversations, List.filter_cons, hdrop,
          Bool.false_eq_true, if_false]
        refine lookupConv_eq_none_of_not_mem _ _ (fun hmem => hna ?_)
        exact cleanup_keys_subset now maxh rest a hmem
      · have hkeep : (fun kv : String × Conversation =>
            !(decide (kv.2.last_activity < now - maxh * 3600))) (a, b) = true := by
          simp [hexp]
        rw [if_neg hexp]
        simp only [ConversationService.cleanup_expired_conversations, List.filter_cons, hkeep,
          if_true, ConversationService.lookupConv, if_pos rfl]
    · simp only [ConversationService.lookupConv, if_neg hac] at hc
      have htail := ih hndr hc
      simp only [ConversationService.cleanup_expired_conversations] at htail ⊢
      rw [List.filter_cons]
      by_cases hb : b.last_activity < now - maxh * 3600
      · simp only [hb, decide_True, Bool.not_true, Bool.false_eq_true, if_false]
        exact htail
      · simp only [hb, decide_False, Bool.not_false, if_true,
          ConversationService.lookupConv, if_neg hac]
        exact htail

/-- Dict assignment can only add or replace, never remove. -/
theorem insertConv_preserves_isSome (store : List (String × Conversation)) (k : String)
    (c : Conversation) (k2 : String)
    (h : (ConversationService.lookupConv store k2).isSome = true) :
    (ConversationService.lookupConv (ConversationService.insertConv store k c) k2).isSome
      = true := by
  rw [lookup_insertConv]
  by_cases hk : k = k2 <;> simp [hk, h]

/-- `start_conversation` never removes a stored conversation. -/
theorem start_preserves_isSome (env : Env) (now : ℚ) (new_id : String) (st : ServiceState)
    (idea k2 : String) (h : (ConversationService.lookupConv st.conversations k2).isSome = true) :
    (ConversationService.lookupConv
        (ConversationService.start_conversation env now new_id st idea).2.conversations k2).isSome
      = true := by
  simp only [ConversationService.start_conversation]
  exact insertConv_preserves_isSome _ _ _ _ h

/-- `continue_conversation` never removes a stored conversation. -/
theorem continue_preserves_isSome (env : Env) (now : ℚ) (new_id : String) (st : ServiceState)
    (cid msg k2 : String)
    (h : (ConversationService.lookupConv st.conversations k2).isSome = true) :
    (ConversationService.lookupConv
        (ConversationService.continue_conversation env now new_id st cid msg).2.conversations
        k2).isSome = true := by
  cases hl : ConversationService.lookupConv st.conversations cid with
  | none =>
    simp only [ConversationService.continue_conversation, hl]
    exact start_preserves_isSome env now new_id st msg k2 h
  | some conv0 =>
    simp only [ConversationService.continue_conversation, hl]
    cases htr : ConversationService.should_generate_documentation msg <;>
      simp only [htr, Bool.false_eq_true, if_false, if_true,
        ConversationService.finish_turn] <;>
      exact insertConv_preserves_isSome _ _ _ _ h

/-- C8: the expiry sweep removes exactly the conversations whose last
activity is strictly older than `now - max_age_hours * 3600` seconds
(so with the default 24, one 25 hours stale goes and one 1 hour stale
stays), returns retained conversations unchanged, and is a separate
operation: neither start nor continue ever removes a stored conversation. -/
theorem C8_expiry_sweep (now maxh : ℚ) (store : List (String × Conversation))
    (hnd : (store.map Prod.fst).Nodup) (cid : String) (c : Conversation)
    (hc : ConversationService.lookupConv store cid = some c) :
    (ConversationService.lookupConv
        (ConversationService.cleanup_expired_conversations now maxh store) cid
      = if c.last_activity < now - maxh * 3600 then none else some c) ∧
    (∀ (env : Env) (n2 : ℚ) (nid : String) (st : ServiceState) (k msg k2 : String),
      (ConversationService.lookupConv st.conversations k2).isSome = true →
      (ConversationService.lookupConv
          (ConversationService.continue_conversation env n2 nid st k msg).2.conversations
          k2).isSome = true) ∧
    (∀ (env : Env) (n2 : ℚ) (nid : String) (st : ServiceState) (idea k2 : String),
      (ConversationService.lookupConv st.conversations k2).isSome = true →
      (ConversationService.lookupConv
          (ConversationService.start_conversation env n2 nid st idea).2.conversations
          k2).isSome = true) :=
  ⟨cleanup_lookup now maxh store hnd cid c hc,
   fun env n2 nid st k msg k2 h => continue_preserves_isSome env n2 nid st k msg k2 h,
   fun env n2 nid st idea k2 h => start_preserves_isSome env n2 nid st idea k2 h⟩

/-- A conversation 25 hours stale at `now = 100000`. -/
def convOld : Conversation := ⟨"old", "an old idea", [], 10000, 10000, "conversation", none⟩

/-- A conversation 1 hour stale at `now = 100000`. -/
def convFresh : Conversation := ⟨"fresh", "a fresh idea", [], 96400, 96400, "conversation", none⟩

/-- The two-conversation store the C8 witness sweeps. -/
def storeExp : List (String × Conversation) := [("old", convOld), ("fresh", convFresh)]

/-- C8 witness: with the default 24-hour threshold at `now = 100000`, the
25-hour-stale conversation is removed and the 1-hour-stale one survives
unchanged. -/
theorem C8_witness :
    ConversationService.lookupConv
        (ConversationService.cleanup_expired_conversations 100000 24 storeExp) "old" = none ∧
    ConversationService.lookupConv
        (ConversationService.cleanup_expired_conversations 100000 24 storeExp) "fresh"
      = some convFresh := by
  have h1 := (C8_expiry_sweep 100000 24 storeExp (by decide) "old" convOld (by rfl)).1
  have h2 := (C8_expiry_sweep 100000 24 storeExp (by decide) "fresh" convFresh (by rfl)).1
  constructor
  · rw [h1, if_pos (by norm_num [convOld])]
  · rw [h2, if_neg (by norm_num [convFresh])]

end ProjectLauncher
